import Mathlib

/-!
Shallow embedding of the native runtime self-defense library of the
AI-ASSISTANT repository (app/src/main/cpp/native-lib.cpp), together with
theorems settling the stated properties of its detection collectors,
security-level state machine, environment cache and monitor loop.

Conventions used throughout:
* OS effects (file reads, system-property probes, prctl calls) are modelled
  as explicit boolean/typed inputs to the embedded functions; the functions
  themselves are translated line by line from the C++ source.
* C `int` values that never overflow in any reachable scenario (security
  levels, tracer pids, time_t arithmetic within a process lifetime) are
  modelled as `Int`; the loop counter is a `Nat` (it starts at 0 and is
  only incremented).
-/

/-! ### Trace detection (native-lib.cpp lines 62-89, `isBeingTraced`) -/

/-- startsWithList needle hay: does `hay` begin with `needle`?  Building
block for the `strstr` model below. -/
def startsWithList : List Char → List Char → Bool
  | [], _ => true
  | _ :: _, [] => false
  | a :: as, b :: bs => a == b && startsWithList as bs

/-- findAfter needle hay models C `strstr(hay, needle)` followed by
advancing the pointer past the needle (`tracer_pid_line + strlen(needle)`
in the source): it returns the suffix of `hay` after the first occurrence
of `needle`, or `none` when `needle` does not occur. -/
def findAfter (needle : List Char) : List Char → Option (List Char)
  | [] => if startsWithList needle [] then some [] else none
  | c :: rest =>
      if startsWithList needle (c :: rest) then some ((c :: rest).drop needle.length)
      else findAfter needle rest

/-- isSpaceChar models C `isspace` on the characters sscanf skips. -/
def isSpaceChar (c : Char) : Bool :=
  c == ' ' || c == '\t' || c == '\n' || c == '\r' || c == Char.ofNat 11 || c == Char.ofNat 12

/-- natOfDigits folds a digit list into the number it denotes. -/
def natOfDigits (ds : List Char) : Nat :=
  ds.foldl (fun n c => 10 * n + (c.toNat - '0'.toNat)) 0

/-- scanInt models `sscanf(s, "%d", &out)`: skip whitespace, accept an
optional sign, then require at least one digit; `none` models sscanf
returning a value other than 1.  (Overflow of C `int` is not modelled:
tracer pids fit.) -/
def scanInt (cs : List Char) : Option Int :=
  let cs1 := cs.dropWhile isSpaceChar
  match cs1 with
  | '-' :: rest =>
      let ds := rest.takeWhile Char.isDigit
      if ds = [] then none else some (-(natOfDigits ds : Int))
  | '+' :: rest =>
      let ds := rest.takeWhile Char.isDigit
      if ds = [] then none else some (natOfDigits ds : Int)
  | _ =>
      let ds := cs1.takeWhile Char.isDigit
      if ds = [] then none else some (natOfDigits ds : Int)

/-- tracerNeedle is the literal `"TracerPid:"` searched for in the status
file (native-lib.cpp line 69). -/
def tracerNeedle : List Char := "TracerPid:".toList

/-- isBeingTraced, from native-lib.cpp lines 62-89.  The input models the
outcome of `open("/proc/self/status")` plus the single `read` of at most
511 bytes: `none` when the open fails (fd < 0) or the read fails
(`num_read < 0` — a failed read yields no content), `some content` when
the file is readable with the given bytes.  The `content.take 511` models
the 512-byte buffer (`sizeof(buf) - 1`); the empty-buffer test models
`num_read <= 0`. -/
def isBeingTraced (file : Option (List Char)) : Bool :=
  match file with
  | none => false
  | some content =>
      let buf := content.take 511
      if buf.length = 0 then false
      else
        match findAfter tracerNeedle buf with
        | none => false
        | some rest =>
            match scanInt rest with
            | none => false
            | some tracer_pid => tracer_pid != 0

/-- tracerPid content: the tracer identifier field as the probe reads it —
the integer parsed right after the first `"TracerPid:"` occurrence within
the first 511 bytes, when both the occurrence and the parse succeed. -/
def tracerPid (content : List Char) : Option Int :=
  match findAfter tracerNeedle (content.take 511) with
  | none => none
  | some rest => scanInt rest

/-! ### Security level (native-lib.cpp lines 291-296, 438-459) -/

/-- setSecurityLevel, from native-lib.cpp lines 291-296: the new level is
stored only when `level >= 1 && level <= 3`; otherwise the stored level
`gSecurityLevel` is left as it was, with no error. -/
def setSecurityLevel (level : Int) (gSecurityLevel : Int) : Int :=
  if 1 ≤ level ∧ level ≤ 3 then level else gSecurityLevel

/-- initNativeSecurity, from native-lib.cpp lines 438-454: after the
initial emulator and hook probes, the level is set to 3 when either fired
and to 1 otherwise (via `setSecurityLevel`). -/
def initNativeSecurity (is_emulator has_hooks : Bool) (gSecurityLevel : Int) : Int :=
  if is_emulator || has_hooks then setSecurityLevel 3 gSecurityLevel
  else setSecurityLevel 1 gSecurityLevel

/-- SecurityCall: the two operations that ever write `gSecurityLevel`
(the JNI set-level entry point and the initializer). -/
inductive SecurityCall where
  | setLevel (level : Int)
  | initCall (is_emulator has_hooks : Bool)
deriving DecidableEq

/-- applyCall runs one level-mutating boundary call on the stored level. -/
def applyCall : SecurityCall → Int → Int
  | SecurityCall.setLevel l, g => setSecurityLevel l g
  | SecurityCall.initCall e h, g => initNativeSecurity e h g

/-- runCalls: the stored level after a sequence of boundary calls, starting
from the static initializer `gSecurityLevel = 1` (native-lib.cpp line 32). -/
def runCalls (calls : List SecurityCall) : Int :=
  calls.foldl (fun g c => applyCall c g) 1

/-! ### Emulator cache (native-lib.cpp lines 33-34, 169-233) -/

/-- EmulatorCache: the globals `gLastEmulatorCheck` (a time_t, 0 meaning
"never computed", its static initializer) and `gIsEmulator`. -/
structure EmulatorCache where
  gLastEmulatorCheck : Int
  gIsEmulator : Bool
deriving DecidableEq

/-- detectEmulator, from native-lib.cpp lines 169-233.  `probe` is the
outcome the property/file scan (lines 179-228) would produce now; `now`
is `time(nullptr)`.  When `now - gLastEmulatorCheck < 60 &&
gLastEmulatorCheck != 0` the cached `gIsEmulator` is returned and the
state is untouched; otherwise the probe result is stored together with
the fresh timestamp and returned. -/
def detectEmulator (probe : Bool) (now : Int) (s : EmulatorCache) : Bool × EmulatorCache :=
  if now - s.gLastEmulatorCheck < 60 ∧ s.gLastEmulatorCheck ≠ 0 then
    (s.gIsEmulator, s)
  else
    (probe, { gLastEmulatorCheck := now, gIsEmulator := probe })

/-! ### On-demand analysis query (native-lib.cpp lines 409-425) -/

/-- isBeingAnalyzedNative, from native-lib.cpp lines 409-425: the four
probe outcomes are combined according to the current `gSecurityLevel`
(`>= 3`: all four OR'd; else `>= 2`: traced/hooked/timing; else:
traced/hooked). -/
def isBeingAnalyzedNative (traced hooked timing_anomaly in_emulator : Bool)
    (gSecurityLevel : Int) : Bool :=
  if gSecurityLevel ≥ 3 then traced || hooked || timing_anomaly || in_emulator
  else if gSecurityLevel ≥ 2 then traced || hooked || timing_anomaly
  else traced || hooked

/-! ### Monitor loop iteration (native-lib.cpp lines 331-390) -/

/-- ProbeResults: what each underlying collector would report on a given
iteration, were it invoked. -/
structure ProbeResults where
  traced : Bool
  hooked : Bool
  timingAnomaly : Bool
  inEmulator : Bool
  inVirtualEnv : Bool
deriving DecidableEq

/-- system_procs, the rotation of decoy names (native-lib.cpp line 370). -/
def system_procs : List String := ["system_server", "zygote", "media", "surfaceflinger"]

/-- IterationEffects: the externally visible actions of one loop body
pass — whether `obfuscateMemory` ran, whether `blockPtraceAttach` ran,
which name (if any) was passed to `spoofProcessName`, and the computed
sleep time in milliseconds. -/
structure IterationEffects where
  obfuscateMemoryCalled : Bool
  blockPtraceCalled : Bool
  spoofedName : Option String
  sleep_time : Int
deriving DecidableEq

/-- evaluatedThreat, the guard of native-lib.cpp line 354: `traced` and
`hooked` are evaluated every iteration; `in_emulator`/`in_virtual_env`
keep their initializer `false` except every 10th iteration (lines
340-345); `timing_anomaly` keeps `false` except every 5th iteration
(lines 348-351). -/
def evaluatedThreat (check_counter : Nat) (p : ProbeResults) : Bool :=
  let in_emulator := if check_counter % 10 = 0 then p.inEmulator else false
  let in_virtual_env := if check_counter % 10 = 0 then p.inVirtualEnv else false
  let timing_anomaly := if check_counter % 5 = 0 then p.timingAnomaly else false
  p.traced || p.hooked || timing_anomaly || in_emulator || in_virtual_env

/-- securityMonitorIteration: one pass of the loop body of
`securityMonitorThread` (native-lib.cpp lines 334-386).  Inside the
threat branch, `obfuscateMemory` runs iff `gSecurityLevel >= 3` and
`blockPtraceAttach` runs in both the `>= 3` and the `else if >= 2`
branches (lines 357-365); the name spoof runs iff `check_counter % 20 ==
0` (lines 368-373) with index `check_counter % 4`.  Outside the threat
branch none of these actions run.  The sleep time is the switch of lines
377-383. -/
def securityMonitorIteration (check_counter : Nat) (gSecurityLevel : Int)
    (p : ProbeResults) : IterationEffects :=
  let sleep_time : Int :=
    if gSecurityLevel = 3 then 100
    else if gSecurityLevel = 2 then 200
    else if gSecurityLevel = 1 then 300
    else 300
  if evaluatedThreat check_counter p then
    { obfuscateMemoryCalled := decide (gSecurityLevel ≥ 3)
      blockPtraceCalled := decide (gSecurityLevel ≥ 3) || decide (gSecurityLevel ≥ 2)
      spoofedName :=
        if check_counter % 20 = 0 then some (system_procs.getD (check_counter % 4) "")
        else none
      sleep_time := sleep_time }
  else
    { obfuscateMemoryCalled := false
      blockPtraceCalled := false
      spoofedName := none
      sleep_time := sleep_time }

/-! ### Loop startup guard (native-lib.cpp lines 29-30, 45-59) -/

/-- MonitorLoopState: the `gSecurityThreadRunning` flag plus a count of
monitor threads ever created (each `pthread_create` at line 53 adds
one). -/
structure MonitorLoopState where
  gSecurityThreadRunning : Bool
  threadCount : Nat
deriving DecidableEq

/-- jniOnLoad models the mutex-protected check-and-start of JNI_OnLoad
(native-lib.cpp lines 50-56): when the flag is clear it is set and a
thread is created, otherwise nothing changes. -/
def jniOnLoad (s : MonitorLoopState) : MonitorLoopState :=
  if s.gSecurityThreadRunning then s
  else { gSecurityThreadRunning := true, threadCount := s.threadCount + 1 }

/-- initialMonitorState: static initializers of the globals
(native-lib.cpp lines 29-30) — flag clear, no thread created yet. -/
def initialMonitorState : MonitorLoopState :=
  { gSecurityThreadRunning := false, threadCount := 0 }

/-! ### hideProcessInfo (native-lib.cpp lines 315-328) -/

/-- HideResult: the boolean returned to the caller plus whether the
cmdline write was attempted. -/
structure HideResult where
  result : Bool
  wroteCmdline : Bool
deriving DecidableEq

/-- hideProcessInfo, from native-lib.cpp lines 315-328: when
`open("/proc/self/cmdline", O_WRONLY)` yields a valid fd the decoy write
is attempted with its return value discarded; in every case the function
returns true.  `openFdOk` models `fd >= 0`; `writeOk` models the
discarded success of `write`. -/
def hideProcessInfo (pid : Int) (openFdOk : Bool) (writeOk : Bool) : HideResult :=
  if openFdOk then
    let _ := writeOk
    { result := true, wroteCmdline := true }
  else
    { result := true, wroteCmdline := false }

/-! ## Helper lemmas -/

/-- boolOfPid: the non-zero test the probe applies to a parsed tracer
field, with parse failure counting as "not traced". -/
def boolOfPid : Option Int → Bool
  | none => false
  | some n => n != 0

/-- Helper: `isBeingTraced` on readable content is the non-zero test on
the parsed tracer field. -/
theorem isBeingTraced_eq_tracerPid (content : List Char) :
    isBeingTraced (some content) = boolOfPid (tracerPid content) := by
  simp only [isBeingTraced, tracerPid]
  by_cases h : (content.take 511).length = 0
  · rw [if_pos h, List.length_eq_zero.mp h]
    rfl
  · rw [if_neg h]
    rcases hf : findAfter tracerNeedle (content.take 511) with _ | rest
    · rfl
    · rcases hs : scanInt rest with _ | n <;> rfl

/-- Helper: every reachable stored security level lies in {1,2,3}. -/
theorem foldl_applyCall_mem (cs : List SecurityCall) :
    ∀ g : Int, (g = 1 ∨ g = 2 ∨ g = 3) →
      (cs.foldl (fun acc c => applyCall c acc) g = 1 ∨
       cs.foldl (fun acc c => applyCall c acc) g = 2 ∨
       cs.foldl (fun acc c => applyCall c acc) g = 3) := by
  induction cs with
  | nil => intro g hg; simpa using hg
  | cons c tl ih =>
      intro g hg
      rw [List.foldl_cons]
      apply ih
      cases c with
      | setLevel l =>
          simp only [applyCall, setSecurityLevel]
          by_cases h : 1 ≤ l ∧ l ≤ 3
          · rw [if_pos h]; omega
          · rw [if_neg h]; exact hg
      | initCall e hk =>
          simp only [applyCall, initNativeSecurity, setSecurityLevel]
          cases e <;> cases hk <;> norm_num

/-- Helper: the spoofed name of one iteration, as a single expression. -/
theorem spoofedName_eq (c : Nat) (g : Int) (p : ProbeResults) :
    (securityMonitorIteration c g p).spoofedName =
      (if evaluatedThreat c p && decide (c % 20 = 0) then
        some (system_procs.getD (c % 4) "")
      else none) := by
  unfold securityMonitorIteration
  by_cases ht : evaluatedThreat c p <;> by_cases h20 : c % 20 = 0 <;>
    simp [ht, h20]

/-- Helper: the memory-noise action of one iteration, as a single
expression. -/
theorem obfuscate_eq (c : Nat) (g : Int) (p : ProbeResults) :
    (securityMonitorIteration c g p).obfuscateMemoryCalled =
      (evaluatedThreat c p && decide (g ≥ 3)) := by
  unfold securityMonitorIteration
  by_cases ht : evaluatedThreat c p <;> simp [ht]

/-- Helper: iterating library loads from the initial state reaches only
the initial state or the one-thread running state. -/
theorem jniOnLoad_iterate (n : Nat) :
    jniOnLoad^[n] initialMonitorState = initialMonitorState ∨
    jniOnLoad^[n] initialMonitorState =
      { gSecurityThreadRunning := true, threadCount := 1 } := by
  induction n with
  | zero => left; rfl
  | succ k ih =>
      rw [Function.iterate_succ_apply']
      rcases ih with h | h <;> rw [h]
      · right; rfl
      · right; rfl

/-! ## Claims -/

/-- Claim C1: for every combination of the four signal values and levels
Maximum(3), Enhanced(2), Normal(1), isBeingAnalyzedNative returns the OR
of all four at Maximum, exactly traced OR hooked OR timing at Enhanced,
and exactly traced OR hooked at Normal, independent of the timing and
emulator values. -/
theorem isBeingAnalyzedNative_levels :
    ∀ t h ti e : Bool,
      isBeingAnalyzedNative t h ti e 3 = (t || h || ti || e) ∧
      isBeingAnalyzedNative t h ti e 2 = (t || h || ti) ∧
      isBeingAnalyzedNative t h ti e 1 = (t || h) := by decide

/-- Claim C2: for every integer L outside {1,2,3}, setSecurityLevel L
leaves the stored level unchanged (and surfaces no error — it is a total
function into the level state); consequently, along every sequence of
level-mutating boundary calls starting from the initial level 1, the
stored level stays in {1,2,3}. -/
theorem setSecurityLevel_rejects_invalid (L g : Int) (calls : List SecurityCall) :
    (¬ (L = 1 ∨ L = 2 ∨ L = 3) → setSecurityLevel L g = g) ∧
    (runCalls calls = 1 ∨ runCalls calls = 2 ∨ runCalls calls = 3) := by
  constructor
  · intro h
    unfold setSecurityLevel
    rw [if_neg]
    omega
  · exact foldl_applyCall_mem calls 1 (Or.inl rfl)

/-- Witness for C2 at L = 7, current level 2, one invalid call. -/
theorem setSecurityLevel_rejects_invalid_witness :
    setSecurityLevel 7 2 = 2 ∧
    (runCalls [SecurityCall.setLevel 7] = 1 ∨
     runCalls [SecurityCall.setLevel 7] = 2 ∨
     runCalls [SecurityCall.setLevel 7] = 3) :=
  ⟨(setSecurityLevel_rejects_invalid 7 2 [SecurityCall.setLevel 7]).1 (by decide),
   (setSecurityLevel_rejects_invalid 7 2 [SecurityCall.setLevel 7]).2⟩

/-- Claim C3: after initNativeSecurity, the stored level is
Maximum(3) when the emulator or the hook signal evaluated true during
initialization, and Normal(1) otherwise, whatever the prior level. -/
theorem initNativeSecurity_level (e h : Bool) (g : Int) :
    initNativeSecurity e h g = if e || h then 3 else 1 := by
  have h3 : setSecurityLevel 3 g = 3 := by
    unfold setSecurityLevel
    rw [if_pos]
    norm_num
  have h1 : setSecurityLevel 1 g = 1 := by
    unfold setSecurityLevel
    rw [if_pos]
    norm_num
  unfold initNativeSecurity
  cases e <;> cases h <;> simp [h3, h1]

/-- Claim C4: when a cached result exists (timestamp non-zero) with age
within the 60-second TTL, the cached boolean is returned with the cache
untouched, independently of the probe; otherwise the probe result —
true or false — is stored with the fresh timestamp and returned; and a
cached value whose age reaches the TTL is never returned: the probe
result is. -/
theorem detectEmulator_cache_contract (probe : Bool) (now : Int) (s : EmulatorCache) :
    (s.gLastEmulatorCheck ≠ 0 → now - s.gLastEmulatorCheck < 60 →
      detectEmulator probe now s = (s.gIsEmulator, s)) ∧
    (¬ (now - s.gLastEmulatorCheck < 60 ∧ s.gLastEmulatorCheck ≠ 0) →
      detectEmulator probe now s =
        (probe, { gLastEmulatorCheck := now, gIsEmulator := probe })) ∧
    (s.gLastEmulatorCheck ≠ 0 → 60 ≤ now - s.gLastEmulatorCheck →
      detectEmulator probe now s =
        (probe, { gLastEmulatorCheck := now, gIsEmulator := probe })) := by
  unfold detectEmulator
  refine ⟨?_, ?_, ?_⟩
  · intro h1 h2
    rw [if_pos ⟨h2, h1⟩]
  · intro h
    rw [if_neg h]
  · intro h1 h2
    rw [if_neg]
    intro hc
    omega

/-- Witness for C4: a fresh-cache hit at age 50 and a recompute at age
150. -/
theorem detectEmulator_cache_contract_witness :
    detectEmulator true 100 { gLastEmulatorCheck := 50, gIsEmulator := false } =
      (false, { gLastEmulatorCheck := 50, gIsEmulator := false }) ∧
    detectEmulator false 200 { gLastEmulatorCheck := 50, gIsEmulator := true } =
      (false, { gLastEmulatorCheck := 200, gIsEmulator := false }) :=
  ⟨(detectEmulator_cache_contract true 100
      { gLastEmulatorCheck := 50, gIsEmulator := false }).1 (by decide) (by decide),
   (detectEmulator_cache_contract false 200
      { gLastEmulatorCheck := 50, gIsEmulator := true }).2.2 (by decide) (by decide)⟩

/-- Counterexample to C5 as stated: on iteration 20 (divisible by 20)
with every detection signal false, no name spoof happens. -/
theorem monitor_no_spoof_without_threat :
    (20 : Nat) % 20 = 0 ∧
    (securityMonitorIteration 20 1
      { traced := false, hooked := false, timingAnomaly := false,
        inEmulator := false, inVirtualEnv := false }).spoofedName = none := by
  decide

/-- Claim C5 (amended): on every monitor-loop iteration whose counter is
divisible by 20 AND on which at least one detection signal evaluated
true, the loop spoofs the process identity to the name selected by
counter mod 4 from the fixed rotation. -/
theorem monitor_spoof_on_threat (c : Nat) (g : Int) (p : ProbeResults)
    (h20 : c % 20 = 0) (ht : evaluatedThreat c p = true) :
    (securityMonitorIteration c g p).spoofedName =
      some (system_procs.getD (c % 4) "") := by
  rw [spoofedName_eq, ht]
  simp [h20]

/-- Witness for amended C5 at counter 20, level 1, traced = true. -/
theorem monitor_spoof_on_threat_witness :
    (securityMonitorIteration 20 1
      { traced := true, hooked := false, timingAnomaly := false,
        inEmulator := false, inVirtualEnv := false }).spoofedName =
      some (system_procs.getD (20 % 4) "") :=
  monitor_spoof_on_threat 20 1
    { traced := true, hooked := false, timingAnomaly := false,
      inEmulator := false, inVirtualEnv := false } (by decide) (by decide)

/-- Counterexample to C6 as stated: on iteration 5 at level 3, with the
timing probe the only true signal (traced, hooked, emulator and virtual
probes all false), the memory-noise action fires. -/
theorem obfuscate_timing_only_fires :
    evaluatedThreat 5
      { traced := false, hooked := false, timingAnomaly := true,
        inEmulator := false, inVirtualEnv := false } = true ∧
    (securityMonitorIteration 5 3
      { traced := false, hooked := false, timingAnomaly := true,
        inEmulator := false, inVirtualEnv := false }).obfuscateMemoryCalled = true := by
  decide

/-- Claim C6 (amended): on an iteration where every signal other than
the timing probe is false, the memory-noise action fires exactly when
the level is at least Maximum(3), the counter is a multiple of 5 and the
timing probe is true; in particular at Normal and Enhanced it never
fires when TimingAnomalous is the only true signal. -/
theorem obfuscate_timing_only_iff (c : Nat) (g : Int) (p : ProbeResults)
    (ht : p.traced = false) (hh : p.hooked = false)
    (he : p.inEmulator = false) (hv : p.inVirtualEnv = false) :
    (securityMonitorIteration c g p).obfuscateMemoryCalled = true ↔
      (3 ≤ g ∧ c % 5 = 0 ∧ p.timingAnomaly = true) := by
  rw [obfuscate_eq]
  unfold evaluatedThreat
  simp only [ht, hh, he, hv, if_neg, Bool.or_false, Bool.false_or,
    Bool.and_eq_true, decide_eq_true_eq, ite_self]
  by_cases h5 : c % 5 = 0
  · simp [h5, ge_iff_le, and_comm]
  · simp [h5]

/-- Witness for amended C6 at counter 5, level 3, timing true. -/
theorem obfuscate_timing_only_iff_witness :
    (securityMonitorIteration 5 3
      { traced := false, hooked := false, timingAnomaly := true,
        inEmulator := false, inVirtualEnv := false }).obfuscateMemoryCalled = true :=
  (obfuscate_timing_only_iff 5 3
    { traced := false, hooked := false, timingAnomaly := true,
      inEmulator := false, inVirtualEnv := false } rfl rfl rfl rfl).mpr
    ⟨by decide, by decide, rfl⟩

/-- Claim C7: the trace probe returns true iff the tracer identifier
field parsed from the status content is non-zero, and returns false —
propagating no error — whenever the source cannot be opened or read
(`none`) or the field cannot be found or parsed. -/
theorem isBeingTraced_spec (file : Option (List Char)) :
    (isBeingTraced file = true ↔
      ∃ content n, file = some content ∧ tracerPid content = some n ∧ n ≠ 0) ∧
    isBeingTraced none = false := by
  refine ⟨?_, rfl⟩
  cases file with
  | none =>
      simp [isBeingTraced]
  | some content =>
      rw [isBeingTraced_eq_tracerPid]
      rcases h : tracerPid content with _ | n
      · simp [h, boolOfPid]
      · simp only [boolOfPid, bne_iff_ne, ne_eq, Option.some.injEq]
        constructor
        · intro hn
          exact ⟨content, n, rfl, h, hn⟩
        · rintro ⟨c, m, hc, hm, hne⟩
          cases hc
          rw [h] at hm
          cases hm
          exact hne

/-- Claim C8: when the running flag is already set, a further library
load leaves the state unchanged and creates no second loop thread;
moreover any number of loads from the initial state leaves at most one
monitor thread ever created. -/
theorem monitor_started_once (s : MonitorLoopState) (n : Nat)
    (h : s.gSecurityThreadRunning = true) :
    jniOnLoad s = s ∧ (jniOnLoad^[n] initialMonitorState).threadCount ≤ 1 := by
  constructor
  · unfold jniOnLoad
    rw [if_pos h]
  · rcases jniOnLoad_iterate n with hI | hI <;> rw [hI] <;> decide

/-- Witness for C8: a running one-thread state and five loads. -/
theorem monitor_started_once_witness :
    jniOnLoad { gSecurityThreadRunning := true, threadCount := 1 } =
      { gSecurityThreadRunning := true, threadCount := 1 } ∧
    (jniOnLoad^[5] initialMonitorState).threadCount ≤ 1 :=
  monitor_started_once { gSecurityThreadRunning := true, threadCount := 1 } 5 rfl

/-- Claim C9: hideProcessInfo returns true for every pid, whether the
cmdline open succeeds or not and whether the write succeeds or not; the
write outcome is not reflected in the result. -/
theorem hideProcessInfo_always_true :
    ∀ (pid : Int) (openFdOk writeOk : Bool),
      (hideProcessInfo pid openFdOk writeOk).result = true := by
  intro pid openFdOk writeOk
  cases openFdOk <;> rfl

/-- Claim C10: whenever an iteration spoofs a name, its counter is
divisible by 20, hence the selection index counter mod 4 is 0 and the
name is "system_server"; the other three rotation entries are never
selected. -/
theorem monitor_spoof_only_system_server (c : Nat) (g : Int) (p : ProbeResults)
    (s : String) (h : (securityMonitorIteration c g p).spoofedName = some s) :
    c % 20 = 0 ∧ c % 4 = 0 ∧ s = "system_server" ∧
    s ≠ "zygote" ∧ s ≠ "media" ∧ s ≠ "surfaceflinger" := by
  rw [spoofedName_eq] at h
  by_cases hc : evaluatedThreat c p && decide (c % 20 = 0)
  · rw [if_pos hc] at h
    have h20 : c % 20 = 0 := by
      have := (Bool.and_eq_true _ _).mp hc
      exact of_decide_eq_true this.2
    have h4 : c % 4 = 0 := by omega
    rw [h4] at h
    have hval : system_procs.getD 0 "" = "system_server" := rfl
    rw [hval] at h
    have hs : "system_server" = s := Option.some.inj h
    refine ⟨h20, h4, hs.symm, ?_, ?_, ?_⟩ <;> rw [← hs] <;> decide
  · rw [if_neg hc] at h
    cases h

/-- Witness for C10 at counter 20, level 1, traced = true,
name "system_server". -/
theorem monitor_spoof_only_system_server_witness :
    (20 : Nat) % 20 = 0 ∧ (20 : Nat) % 4 = 0 ∧
    ("system_server" : String) = "system_server" ∧
    ("system_server" : String) ≠ "zygote" ∧
    ("system_server" : String) ≠ "media" ∧
    ("system_server" : String) ≠ "surfaceflinger" :=
  monitor_spoof_only_system_server 20 1
    { traced := true, hooked := false, timingAnomaly := false,
      inEmulator := false, inVirtualEnv := false } "system_server" (by decide)
